import Mathlib

/-
Verification development for the groovebuoy room-coordination server.

The JavaScript source (src/models/room.js and the Peer RPC layer in
src/unnamed/part_000) is shallowly embedded below.  Peers are identified
by their ids (distinct connected peers are assumed to have distinct ids,
which is how the source compares them: object identity for peers that
were created once per connection, and dj.id comparisons in addDj).

Asynchronous functions (spinDj, fetchOnDeck) are embedded in two parts:
a start function that runs the code up to the first await (JavaScript
runs an async function synchronously up to its first await; all callers
invoke these without awaiting them), and a resume function modelling the
continuation that runs when the requestTrack reply arrives.  Outstanding
awaits are recorded in a pending list so that a resume event corresponds
to a previously issued request.

Timers (the 5 s skip timeout and the 45 s room-removal timeout) are
modelled as Option Nat fields holding the delay in milliseconds while
the timer is pending; firing is a separate event function.

Wall-clock values (startedAt timestamps), the id and name fields of the
room, chat, profile handling and the serialize functions are inert for
the claims below and are omitted from the state.
-/

namespace Groovebuoy

abbrev PeerId := Nat
abbrev TrackId := Nat

/-- Messages emitted by room operations: broadcasts to the whole roster,
directed sends to one peer, and the server-wide rooms broadcast. -/
inductive Msg where
  | setPeersB (peers : List PeerId)
  | setDjsB (djs : List PeerId)
  | setActiveDjB (djId : Option PeerId)
  | playTrackB (trackId : TrackId)
  | stopTrackB
  | setOnDeckB (track : Option TrackId)
  | setVotesB (votes : List (PeerId × Bool))
  | setSkipWarningB (value : Bool)
  | broadcastRoomsS
  | requestTrackTo (dj : PeerId)
  | cycleSelectedQueueTo (dj : PeerId)
  | playTrackTo (p : PeerId) (trackId : TrackId)
  | setOnDeckTo (p : PeerId) (track : TrackId)
  deriving DecidableEq

/-- The nowPlaying record of room.js: the playing track and the votes map.
Votes are an association list mirroring the JavaScript object keyed by
peer id (keys unique, insertion order); true encodes a downvote.  The
startedAt wall-clock field is omitted. -/
structure NowPlaying where
  trackId : TrackId
  votes : List (PeerId × Bool)
  deriving DecidableEq

/-- Room state, from the constructor of room.js. -/
structure Room where
  adminId : PeerId
  admin : Option PeerId
  activeDj : Option PeerId
  nowPlaying : Option NowPlaying
  onDeck : Option TrackId
  skipWarning : Bool
  peers : List PeerId
  djs : List PeerId
  skipTimer : Option Nat
  removalTimer : Option Nat
  deriving DecidableEq

/-- An outstanding await on a requestTrack reply: spinDj or fetchOnDeck
suspended after sending requestTrack to the given dj. -/
inductive Pending where
  | spinAwait (dj : PeerId)
  | fetchAwait (target : PeerId)
  deriving DecidableEq

/-- The state a single room's operations touch: the room itself, the
server-wide Track Registry (ids of registered tracks, in insertion
order) and the outstanding awaits. -/
structure St where
  room : Room
  tracks : List TrackId
  pending : List Pending
  deriving DecidableEq

/-- Reply value of an RPC handler: either a success object or an
error object carrying a message. -/
inductive RpcReply where
  | ok
  | err (message : String)
  deriving DecidableEq

def MAX_DJS : Nat := 5

/-- nextDj from room.js lines 166-176.  When activeDj is not in djs the
JavaScript indexOf returns -1 and (-1 + 1) mod length is 0, so the head
of djs is returned; the Int arithmetic reproduces that. -/
def nextDj (r : Room) : Option PeerId :=
  if r.djs.length = 0 then none
  else
    match r.activeDj with
    | none => r.djs[0]?
    | some a =>
        let currentIndex : Int := if a ∈ r.djs then (r.djs.indexOf a : Int) else -1
        let nextIndex : Int := (currentIndex + 1) % (r.djs.length : Int)
        r.djs[nextIndex.toNat]?

/-- setActiveDj from room.js lines 155-164. -/
def setActiveDjOp (r : Room) (p : Option PeerId) : Room × List Msg :=
  match p with
  | none => ({ r with activeDj := none }, [Msg.setActiveDjB none])
  | some q => ({ r with activeDj := some q }, [Msg.setActiveDjB (some q)])

/-- setOnDeck from room.js lines 320-323. -/
def setOnDeckOp (r : Room) (track : Option TrackId) : Room × List Msg :=
  ({ r with onDeck := track },
   match track with
   | none => [Msg.setOnDeckB none]
   | some t => [Msg.setOnDeckB (some t)])

/-- fetchOnDeck up to its await (room.js lines 226-234): evict a
displaced on-deck track from the registry, then send requestTrack to
nextDj and suspend.  When nextDj is null the JavaScript would throw on
nextDj.send, rejecting the promise with no further state change; the
model stops after the eviction in that case. -/
def fetchOnDeck_start (s : St) : St × List Msg :=
  let s1 :=
    match s.room.onDeck with
    | some t => { s with tracks := s.tracks.erase t }
    | none => s
  match nextDj s1.room with
  | none => (s1, [])
  | some target =>
      ({ s1 with pending := s1.pending ++ [Pending.fetchAwait target] },
       [Msg.requestTrackTo target])

/-- fetchOnDeck after its await (room.js lines 236-246), resumed with the
track the requested dj replied with (the model lets the caller pick the
fresh uuid).  The race guard: if nextDj no longer equals the dj the
request was sent to, the reply is discarded. -/
def fetchOnDeck_resume (s : St) (target : PeerId) (track : TrackId) : St × List Msg :=
  let s0 := { s with pending := s.pending.erase (Pending.fetchAwait target) }
  if nextDj s0.room ≠ some target then (s0, [])
  else
    let s1 := { s0 with tracks := s0.tracks ++ [track] }
    ({ s1 with room := { s1.room with onDeck := some track } },
     [Msg.setOnDeckB (some track)])

/-- spinDj up to its first await (room.js lines 178-224).  With a track
on deck there is no await at all and the whole body, including the
fire-and-forget fetchOnDeck at the end, runs synchronously; otherwise
the function suspends after sending requestTrack to the selected dj. -/
def spinDj_start (s : St) : St × List Msg :=
  match nextDj s.room with
  | none =>
      let r1 := setActiveDjOp s.room none
      let r2 := setOnDeckOp r1.1 none
      ({ s with room := r2.1 }, r1.2 ++ r2.2)
  | some dj =>
      let r1 := setActiveDjOp s.room (some dj)
      match r1.1.onDeck with
      | some t =>
          let room2 := { r1.1 with
                         onDeck := none
                         nowPlaying := some { trackId := t, votes := [] } }
          let r3 := fetchOnDeck_start { s with room := room2 }
          (r3.1, r1.2 ++ [Msg.broadcastRoomsS, Msg.playTrackB t,
                          Msg.cycleSelectedQueueTo dj] ++ r3.2)
      | none =>
          ({ s with room := r1.1, pending := s.pending ++ [Pending.spinAwait dj] },
           r1.2 ++ [Msg.requestTrackTo dj])

/-- spinDj after its await (room.js lines 196-224): register the track,
publish nowPlaying with an empty votes map, broadcast playTrack, tell
the dj to cycle its queue and initiate fetchOnDeck.  Note that the
source performs no re-check after the await. -/
def spinDj_resume (s : St) (dj : PeerId) (track : TrackId) : St × List Msg :=
  let s0 := { s with pending := s.pending.erase (Pending.spinAwait dj) }
  let s1 := { s0 with tracks := s0.tracks ++ [track] }
  let s2 := { s1 with room := { s1.room with
                nowPlaying := some { trackId := track, votes := [] } } }
  let r3 := fetchOnDeck_start s2
  (r3.1, [Msg.broadcastRoomsS, Msg.playTrackB track,
          Msg.cycleSelectedQueueTo dj] ++ r3.2)

/-- endTrack from room.js lines 249-262.  Returns false when nothing is
playing; otherwise evicts the track, nulls nowPlaying, broadcasts and
advances via spinDj.  Neither skipWarning nor the skip timeout is
touched here. -/
def endTrack (s : St) : (St × List Msg) × Bool :=
  match s.room.nowPlaying with
  | none => ((s, []), false)
  | some np =>
      let s1 := { s with
                  tracks := s.tracks.erase np.trackId
                  room := { s.room with nowPlaying := none } }
      let r2 := spinDj_start s1
      ((r2.1, [Msg.stopTrackB, Msg.setActiveDjB none, Msg.broadcastRoomsS] ++ r2.2), true)

/-- removeDj from room.js lines 128-153. -/
def removeDj (s : St) (p : PeerId) : (St × List Msg) × Bool :=
  if p ∉ s.room.djs then ((s, []), false)
  else
    let refreshOnDeck := nextDj s.room = some p
    let djs2 := s.room.djs.erase p
    let s1 := { s with room := { s.room with djs := djs2 } }
    let m1 := [Msg.setDjsB djs2]
    if s1.room.activeDj = some p then
      let r2 := endTrack s1
      ((r2.1.1, m1 ++ r2.1.2), r2.2)
    else if djs2.length ≠ 0 ∧ refreshOnDeck then
      let r2 := fetchOnDeck_start s1
      ((r2.1, m1 ++ r2.2), true)
    else if djs2.length = 0 then
      let r2 := setOnDeckOp s1.room none
      (({ s1 with room := r2.1 }, m1 ++ r2.2), true)
    else ((s1, m1), true)

/-- addDj from room.js lines 102-126.  Rejects when the room already has
MAX_DJS djs or the peer is already a dj; otherwise appends, broadcasts,
spins up the first dj and prefetches when the new dj is next. -/
def addDj (s : St) (p : PeerId) : (St × List Msg) × RpcReply :=
  if MAX_DJS ≤ s.room.djs.length then
    ((s, []), RpcReply.err "too many djs, not enough mics")
  else if p ∈ s.room.djs then
    ((s, []), RpcReply.err "already a dj")
  else
    let djs2 := s.room.djs ++ [p]
    let s1 := { s with room := { s.room with djs := djs2 } }
    let m1 := [Msg.setDjsB djs2]
    let r2 := if djs2.length = 1 then spinDj_start s1 else (s1, [])
    let r3 := if nextDj r2.1.room = some p then fetchOnDeck_start r2.1 else (r2.1, [])
    ((r3.1, m1 ++ r2.2 ++ r3.2), RpcReply.ok)

/-- addPeer from room.js lines 40-69: set admin when the joiner is the
room creator, append to the roster, cancel any pending removal timeout,
broadcast the roster (excluding the joiner) and the rooms list, and
privately send the joiner the current track and on-deck track. -/
def addPeer (s : St) (p : PeerId) : St × List Msg :=
  let admin2 := if p = s.room.adminId then some p else s.room.admin
  let room1 := { s.room with
                 admin := admin2
                 peers := s.room.peers ++ [p]
                 removalTimer := none }
  let msgs := [Msg.setPeersB room1.peers, Msg.broadcastRoomsS]
    ++ (match room1.nowPlaying with
        | some np => [Msg.playTrackTo p np.trackId]
        | none => [])
    ++ (match room1.onDeck with
        | some t => [Msg.setOnDeckTo p t]
        | none => [])
  ({ s with room := room1 }, msgs)

/-- removePeer from room.js lines 71-99.  A peer that is not in the
roster is logged and ignored; otherwise the peer is spliced out, removed
from the dj list, an empty roster schedules removal in 45 s, the admin
slot is cleared when the admin leaves, and the roster is broadcast. -/
def removePeer (s : St) (p : PeerId) : St × List Msg :=
  if p ∉ s.room.peers then (s, [])
  else
    let s1 := { s with room := { s.room with peers := s.room.peers.erase p } }
    let r2 := removeDj s1 p
    let s2 := r2.1.1
    let s3 := if s2.room.peers.length = 0 then
        { s2 with room := { s2.room with removalTimer := some 45000 } }
      else s2
    let room4 := if s3.room.admin = some p then { s3.room with admin := none }
      else s3.room
    ({ s3 with room := room4 }, r2.1.2 ++ [Msg.setPeersB room4.peers, Msg.broadcastRoomsS])

/-- Comparison num / den >= thNum / thDen as the source's floating-point
comparison decides it.  For den = 0 JavaScript yields Infinity (num > 0,
so the comparison is true) or NaN (num = 0, so it is false); for den > 0
the double comparisons against the literals .3 and .5 agree with the
exact rational comparison for every count representable in the room
(the nearest rational below 3/10 with denominator at most 2 to the 32 is
farther from 3/10 than the double literal is). -/
def geDiv (num den thNum thDen : Nat) : Bool :=
  if den = 0 then decide (num ≠ 0)
  else decide (thNum * den ≤ num * thDen)

/-- The source's downs counter (room.js 289-295): the reduce returns
downs unchanged and ups+1 for a truthy entry, and ups unchanged with
downs+1 for a false entry, so downs counts the false entries of the
votes map (the up votes, despite its name). -/
def countDowns (v : List (PeerId × Bool)) : Nat :=
  (v.filter (fun e => !e.2)).length

/-- The source's ups counter (room.js 289-295): incremented for truthy
entries, so ups counts the true entries of the votes map (the down
votes, despite its name). -/
def countUps (v : List (PeerId × Bool)) : Nat :=
  (v.filter (fun e => e.2)).length

/-- The skip predicate of room.js line 297-299: quorum at least 30
percent of the roster and at least half the votes down. -/
def shouldSkip (ups downs numPeers : Nat) : Bool :=
  geDiv (ups + downs) numPeers 3 10 && geDiv downs (ups + downs) 1 2

/-- votes[peerId] = direction on the JavaScript object: overwrite an
existing key in place, append a new key. -/
def votesSet (v : List (PeerId × Bool)) (p : PeerId) (b : Bool) :
    List (PeerId × Bool) :=
  if v.any (fun e => e.1 == p) then
    v.map (fun e => if e.1 = p then (p, b) else e)
  else v ++ [(p, b)]

/-- setVote from room.js lines 276-318: record the vote, broadcast the
votes map, evaluate the skip predicate and drive the skip warning
transitions, arming a 5 s skip timeout on a false-to-true transition and
cancelling it on a true-to-false transition.  Note that the reduce of
lines 289-295 binds the counters crosswise (a true entry increments ups,
a false entry increments downs), which countUps and countDowns embed
as the source computes them. -/
def setVote (s : St) (peerId : PeerId) (direction : Bool) :
    (St × List Msg) × RpcReply :=
  match s.room.nowPlaying with
  | none => ((s, []), RpcReply.err "there is no track playing")
  | some np =>
      let votes2 := votesSet np.votes peerId direction
      let room1 := { s.room with nowPlaying := some { np with votes := votes2 } }
      let m1 := [Msg.setVotesB votes2]
      let ups := countUps votes2
      let downs := countDowns votes2
      let should := shouldSkip ups downs room1.peers.length
      if room1.skipWarning = false ∧ should = true then
        (({ s with room := { room1 with skipWarning := true, skipTimer := some 5000 } },
          m1 ++ [Msg.setSkipWarningB true]), RpcReply.ok)
      else if room1.skipWarning = true ∧ should = false then
        (({ s with room := { room1 with skipWarning := false, skipTimer := none } },
          m1 ++ [Msg.setSkipWarningB false]), RpcReply.ok)
      else (({ s with room := room1 }, m1), RpcReply.ok)

/-- The skip timeout callback of room.js lines 305-309: clear the
warning, broadcast it, end the track. -/
def skipTimerFire (s : St) : St × List Msg :=
  let s1 := { s with room := { s.room with skipWarning := false, skipTimer := none } }
  let r2 := endTrack s1
  (r2.1.1, Msg.setSkipWarningB false :: r2.1.2)

/-- A single-room world: the room's state, whether the room is still in
the server's directory, and the set of peer ids whose currentRoom
pointer refers to this room. -/
structure World where
  st : St
  roomPresent : Bool
  cur : List PeerId
  deriving DecidableEq

/-- joinRoom from the Peer RPC layer (part_000 lines 135-145): look the
room up in the directory, set currentRoom, add self to the roster. -/
def joinRoom (w : World) (pid : PeerId) : (World × List Msg) × RpcReply :=
  if w.roomPresent = false then ((w, []), RpcReply.err "room not found")
  else
    let cur2 := if pid ∈ w.cur then w.cur else w.cur ++ [pid]
    let r2 := addPeer w.st pid
    (({ w with cur := cur2, st := r2.1 }, r2.2), RpcReply.ok)

/-- leaveRoom from the Peer RPC layer (part_000 lines 147-154): error
when currentRoom is null, otherwise remove self from the room.  The
source never resets this.currentRoom, so cur is left unchanged. -/
def leaveRoom (w : World) (pid : PeerId) : (World × List Msg) × RpcReply :=
  if pid ∉ w.cur then ((w, []), RpcReply.err "you are not in a room")
  else
    let r2 := removePeer w.st pid
    (({ w with st := r2.1 }, r2.2), RpcReply.ok)

/-- JavaScript truthiness of an addDj reply: both the success object and
the error object are objects, and every object is truthy. -/
def jsTruthy (_r : RpcReply) : Bool := true

/-- becomeDj from the Peer RPC layer (part_000 lines 164-174): the
source tests the negation of the truthiness of the addDj result, and
since addDj always returns an object that test never fires. -/
def becomeDj (w : World) (pid : PeerId) : (World × List Msg) × RpcReply :=
  if pid ∉ w.cur then ((w, []), RpcReply.err "must be in a room to promote")
  else
    let r2 := addDj w.st pid
    if jsTruthy r2.2 = false then
      (({ w with st := r2.1.1 }, r2.1.2), RpcReply.err "could not promote")
    else (({ w with st := r2.1.1 }, r2.1.2), RpcReply.ok)

/-- stepDown from the Peer RPC layer (part_000 lines 176-187): the reply
reports the boolean returned by removeDj. -/
def stepDown (w : World) (pid : PeerId) : (World × List Msg) × RpcReply :=
  if pid ∉ w.cur then ((w, []), RpcReply.err "must be in a room to step down")
  else
    let r2 := removeDj w.st pid
    if r2.2 = false then
      (({ w with st := r2.1.1 }, r2.1.2), RpcReply.err "must be a dj to step down")
    else (({ w with st := r2.1.1 }, r2.1.2), RpcReply.ok)

/-- skipTurn from the Peer RPC layer (part_000 lines 236-243). -/
def skipTurn (w : World) (pid : PeerId) : (World × List Msg) × RpcReply :=
  if ¬ (pid ∈ w.cur ∧ w.st.room.activeDj = some pid) then
    ((w, []), RpcReply.err "must be active dj to skip turn")
  else
    let r2 := endTrack w.st
    (({ w with st := r2.1.1 }, r2.1.2), RpcReply.ok)

/-- trackEnded from the Peer RPC layer (part_000 lines 189-201). -/
def trackEnded (w : World) (pid : PeerId) : (World × List Msg) × RpcReply :=
  if pid ∉ w.cur then ((w, []), RpcReply.err "must be in a room to end a track")
  else if w.st.room.activeDj ≠ some pid then
    ((w, []), RpcReply.err "must be the active dj to end the track")
  else
    let r2 := endTrack w.st
    (({ w with st := r2.1.1 }, r2.1.2), RpcReply.ok)

/-- vote from the Peer RPC layer (part_000 lines 226-234). -/
def vote (w : World) (pid : PeerId) (direction : Bool) : (World × List Msg) × RpcReply :=
  if pid ∉ w.cur then ((w, []), RpcReply.err "you must be in a room in order to vote")
  else if w.st.room.nowPlaying = none then
    ((w, []), RpcReply.err "there is no song playing to vote on")
  else
    let r2 := setVote w.st pid direction
    (({ w with st := r2.1.1 }, r2.1.2), r2.2)

/-- The room-removal timeout callback of room.js lines 335-340 together
with server.removeRoom.  Modelled from the spec: server.removeRoom
(peer-server.js is not under src) detaches the room from the server's
directory.  The callback itself re-checks that the roster is still
empty before removing. -/
def removalTimerFire (w : World) : World :=
  let w1 := { w with st := { w.st with room := { w.st.room with removalTimer := none } } }
  if 0 < w1.st.room.peers.length then w1
  else { w1 with roomPresent := false }

/-!  The authenticator (join and authenticate, part_000 lines 89-129).
Tokens are modelled symbolically: a token either carries the claims it
was signed over with the process-wide secret, or fails verification. -/

/-- Modelled from the spec: the Server object lives in peer-server.js,
which is not under src.  Per the spec (section 4.5) it exposes wsUrl and
name; it has no property named ws_url, so the JavaScript field access
server.ws_url used on part_000 line 106 evaluates to undefined,
modelled as none. -/
structure ServerCfg where
  wsUrl : String
  name : String
  deriving DecidableEq

/-- The claims object of a JWT payload: u (url), n (server name),
i (peer id).  A field a signed payload does not carry reads back as
undefined, modelled as none (JSON serialization drops undefined). -/
structure TokenClaims where
  u : Option String
  n : Option String
  i : Option PeerId
  deriving DecidableEq

/-- A token is either one signed with the server's secret over some
claims, or anything else, which fails verification. -/
inductive Token where
  | signed (c : TokenClaims)
  | invalid
  deriving DecidableEq

/-- JWT.verify with the process secret: returns the signed claims or
throws (none). -/
def verifyTok : Token → Option TokenClaims
  | Token.signed c => some c
  | Token.invalid => none

inductive JoinReply where
  | ok (token : Token) (peerId : PeerId)
  | err (message : String)
  deriving DecidableEq

inductive AuthReply where
  | ok (peerId : Option PeerId)
  | err (message : String)
  deriving DecidableEq

/-- join from part_000 lines 89-116: verify the invite, check u and n
against the server, mint a fresh peer id (supplied by the caller here,
matching the fresh uuid), and sign a session token whose u field is
server.ws_url, a property the Server does not have. -/
def join (srv : ServerCfg) (tok : Token) (newId : PeerId) : JoinReply :=
  match verifyTok tok with
  | none => JoinReply.err "invalid token"
  | some invite =>
      if invite.u ≠ some srv.wsUrl ∨ invite.n ≠ some srv.name then
        JoinReply.err "invalid token"
      else
        JoinReply.ok (Token.signed { u := none, n := some srv.name, i := some newId }) newId

/-- authenticate from part_000 lines 118-129: verify the session token
(an invalid token throws, surfaced by the dispatcher as an error reply),
check u and n against server.wsUrl and server.name, adopt the embedded
peer id. -/
def authenticate (srv : ServerCfg) (tok : Token) : AuthReply :=
  match verifyTok tok with
  | none => AuthReply.err "invalid token"
  | some t =>
      if t.u ≠ some srv.wsUrl ∨ t.n ≠ some srv.name then
        AuthReply.err "invalid token"
      else
        AuthReply.ok t.i

/-! Concrete states used by the claim evaluations.
Room fields in constructor order: adminId, admin, activeDj, nowPlaying,
onDeck, skipWarning, peers, djs, skipTimer, removalTimer. -/

/-- A room with three peers, djs 1 and 2, dj 1 playing track 100 with no
votes yet, track 200 prefetched on deck. -/
def exPlayingSt : St :=
  ⟨⟨9, none, some 1, some ⟨100, []⟩, some 200, false, [1, 2, 3], [1, 2], none, none⟩,
   [100, 200], []⟩

def exPlayingW : World := ⟨exPlayingSt, true, [1, 2, 3]⟩

/-- After peer 2 casts an up vote (direction false): the source's
crosswise reduce counts the false entry as the sole down vote, so one
vote out of three peers reaches quorum with downPerc 1 and the skip
warning is armed with a 5 s timer. -/
def exWarnedW : World := (vote exPlayingW 2 false).1.1

/-- After the active dj then skips its turn: endTrack runs and spinDj
starts the on-deck track 200. -/
def exSkippedW : World := (skipTurn exWarnedW 1).1.1

/-- C2: a skip warning is active (the 5 s skip timer armed by peer 2's
vote against track 100 is pending) and the active dj ends the track via
skipTurn; the source's endTrack does not cancel the skip timeout, so it
stays pending while the next track 200 is published, and when it fires
it calls endTrack against track 200, a track it was never armed for.
The claim says the timer is cancelled when the track ends from any
cause; the code keeps it. -/
theorem skip_timer_outlives_track :
    (vote exPlayingW 2 false).2 = RpcReply.ok
    ∧ exWarnedW.st.room.skipWarning = true
    ∧ exWarnedW.st.room.skipTimer = some 5000
    ∧ (skipTurn exWarnedW 1).2 = RpcReply.ok
    ∧ exSkippedW.st.room.nowPlaying = some ⟨200, []⟩
    ∧ exSkippedW.st.room.skipTimer = some 5000
    ∧ (skipTimerFire exSkippedW.st).1.room.nowPlaying = none
    ∧ Msg.stopTrackB ∈ (skipTimerFire exSkippedW.st).2 := by
  refine ⟨rfl, rfl, rfl, rfl, rfl, rfl, rfl, ?_⟩
  decide

/-- A fresh empty room, still listed in the server directory, with no
peer pointing at it. -/
def exEmptyW : World := ⟨⟨⟨9, none, none, none, none, false, [], [], none, none⟩, [], []⟩, true, []⟩

/-- Peer 7 joins the room. -/
def exJoinedW : World := (joinRoom exEmptyW 7).1.1

/-- Peer 7 then leaves the room. -/
def exLeftW : World := (leaveRoom exJoinedW 7).1.1

/-- C4: leaveRoom with a current room removes the peer from the roster
and replies success, but the source never resets this.currentRoom, so
the peer still points at the room afterwards: a second leaveRoom still
finds a room and again replies success (while the room logs a missing
peer).  The claim says current_room is set to null. -/
theorem leaveRoom_keeps_currentRoom :
    (leaveRoom exJoinedW 7).2 = RpcReply.ok
    ∧ 7 ∉ exLeftW.st.room.peers
    ∧ 7 ∈ exLeftW.cur
    ∧ (leaveRoom exLeftW 7).2 = RpcReply.ok
    ∧ (leaveRoom exLeftW 7).1.1.st.room.peers = exLeftW.st.room.peers := by
  decide

/-- C3: the invariant that djs is always contained in peers is breakable
by the handler sequence joinRoom, leaveRoom, becomeDj: after leaveRoom
the stale currentRoom pointer lets becomeDj promote a peer that is no
longer in the roster, leaving peer 7 in djs but not in peers. -/
theorem dj_outside_roster_reachable :
    (joinRoom exEmptyW 7).2 = RpcReply.ok
    ∧ (leaveRoom exJoinedW 7).2 = RpcReply.ok
    ∧ (becomeDj exLeftW 7).2 = RpcReply.ok
    ∧ 7 ∈ (becomeDj exLeftW 7).1.1.st.room.djs
    ∧ 7 ∉ (becomeDj exLeftW 7).1.1.st.room.peers := by
  decide

/-- A room whose dj list is full: six peers, five of them djs, dj 1
playing track 100. -/
def exFullW : World :=
  ⟨⟨⟨1, some 1, some 1, some ⟨100, []⟩, none, false,
     [1, 2, 3, 4, 5, 6], [1, 2, 3, 4, 5], none, none⟩, [100], []⟩,
   true, [1, 2, 3, 4, 5, 6]⟩

/-- C5: with five djs present, addDj does reject the sixth peer and
leaves djs unchanged, but becomeDj tests the negated truthiness of the
returned error object, which is truthy, so the RPC reply is the success
object rather than an error; the same happens for a caller that is
already a dj (shown on the two-dj room, since the length check fires
first in a full room). -/
theorem sixth_becomeDj_replies_success :
    (addDj exFullW.st 6).2 = RpcReply.err "too many djs, not enough mics"
    ∧ (becomeDj exFullW 6).2 = RpcReply.ok
    ∧ (becomeDj exFullW 6).1.1.st.room.djs = [1, 2, 3, 4, 5]
    ∧ (addDj exPlayingSt 1).2 = RpcReply.err "already a dj"
    ∧ (becomeDj exPlayingW 1).2 = RpcReply.ok
    ∧ (becomeDj exPlayingW 1).1.1.st.room.djs = [1, 2] := by
  refine ⟨rfl, rfl, ?_, rfl, rfl, ?_⟩ <;> decide

def exSrv : ServerCfg := ⟨"wss://buoy.example", "buoy"⟩

def exInvite : TokenClaims := ⟨some "wss://buoy.example", some "buoy", none⟩

/-- C6: a successful join signs the session token from server.ws_url, a
property the Server does not define, so the token's u claim is
undefined; authenticate compares that claim against server.wsUrl and
rejects it, so the token returned by join never authenticates on the
same server, instead of returning the same peer id. -/
theorem join_token_fails_authenticate :
    join exSrv (Token.signed exInvite) 1
      = JoinReply.ok (Token.signed ⟨none, some "buoy", some 1⟩) 1
    ∧ authenticate exSrv (Token.signed ⟨none, some "buoy", some 1⟩)
      = AuthReply.err "invalid token" := by
  refine ⟨rfl, rfl⟩

/-- C7: the race guard of fetchOnDeck: a requestTrack reply arriving
when nextDj no longer equals the dj the request was sent to is
discarded: the state is unchanged apart from the completed await, so
nothing is inserted into the Track Registry, on deck is unchanged, and
no message (in particular no setOnDeck broadcast) is emitted. -/
theorem fetchOnDeck_stale_reply_discarded (s : St) (target : PeerId) (track : TrackId)
    (h : nextDj s.room ≠ some target) :
    (fetchOnDeck_resume s target track).1
        = { s with pending := s.pending.erase (Pending.fetchAwait target) }
    ∧ (fetchOnDeck_resume s target track).1.room = s.room
    ∧ (fetchOnDeck_resume s target track).1.tracks = s.tracks
    ∧ (fetchOnDeck_resume s target track).2 = [] := by
  simp [fetchOnDeck_resume, h]

/-- Witness for C7 at a concrete input: a room whose nextDj is 2 while
the outstanding request was sent to dj 1. -/
theorem fetchOnDeck_stale_reply_discarded_witness :
    nextDj exPlayingSt.room ≠ some 3
    ∧ (fetchOnDeck_resume exPlayingSt 3 77).2 = [] := by
  refine ⟨by decide, (fetchOnDeck_stale_reply_discarded exPlayingSt 3 77 (by decide)).2.2.2⟩

/-- The state right after spinDj selected dj 1 and suspended awaiting
its requestTrack reply. -/
def exSpinReqSt : St :=
  (spinDj_start ⟨⟨9, none, none, none, none, false, [1, 2], [1], none, none⟩, [], []⟩).1

/-- The same state after dj 1 stepped down and peer 2 became dj while
the request was in flight: the outstanding spin await for dj 1 is still
pending but nextDj is now 2. -/
def exSpinStaleSt : St := ((addDj (((removeDj exSpinReqSt 1).1).1) 2).1).1

/-- C8: spinDj performs no re-check after its await: the reply from dj 1
arrives when nextDj is 2 (the dj set changed during the await), yet the
code inserts the track into the registry and publishes nowPlaying and
playTrack anyway.  The claim says the post-await path re-checks and does
not publish a stale reply. -/
theorem stale_spin_reply_published :
    Pending.spinAwait 1 ∈ exSpinStaleSt.pending
    ∧ nextDj exSpinStaleSt.room = some 2
    ∧ (spinDj_resume exSpinStaleSt 1 500).1.room.nowPlaying = some ⟨500, []⟩
    ∧ 500 ∈ (spinDj_resume exSpinStaleSt 1 500).1.tracks
    ∧ Msg.playTrackB 500 ∈ (spinDj_resume exSpinStaleSt 1 500).2 := by
  decide

/-- C10: a dj who is the active dj while nothing is playing (the
prefetch interval inside spinDj) and steps down: removeDj splices the dj
out and broadcasts the updated dj list, then reaches endTrack, which
returns false because nowPlaying is null; stepDown reports that false as
the error reply, despite the performed state change. -/
theorem stepDown_active_dj_no_track (w : World) (pid : PeerId)
    (hcur : pid ∈ w.cur) (hdj : pid ∈ w.st.room.djs)
    (hnodup : w.st.room.djs.Nodup)
    (hactive : w.st.room.activeDj = some pid)
    (hnp : w.st.room.nowPlaying = none) :
    (stepDown w pid).1.1.st.room.djs = w.st.room.djs.erase pid
    ∧ pid ∉ (stepDown w pid).1.1.st.room.djs
    ∧ (stepDown w pid).1.2 = [Msg.setDjsB (w.st.room.djs.erase pid)]
    ∧ (stepDown w pid).2 = RpcReply.err "must be a dj to step down" := by
  simp only [stepDown, removeDj, endTrack, hactive, hnp,
    not_not_intro hcur, not_not_intro hdj, if_false, ite_false, ite_true]
  refine ⟨trivial, ?_, by simp, trivial⟩
  exact fun hm => ((List.Nodup.mem_erase_iff hnodup).1 hm).1 rfl

/-- Witness for C10: peer 4 is active dj of a room with djs 4 and 5 and
nothing playing, and steps down. -/
theorem stepDown_active_dj_no_track_witness :
    (stepDown ⟨⟨⟨9, none, some 4, none, none, false, [4, 5], [4, 5], none, none⟩, [], []⟩, true, [4, 5]⟩ 4).2
      = RpcReply.err "must be a dj to step down" :=
  (stepDown_active_dj_no_track
    ⟨⟨⟨9, none, some 4, none, none, false, [4, 5], [4, 5], none, none⟩, [], []⟩, true, [4, 5]⟩ 4
    (by decide) (by decide) (by decide) rfl rfl).2.2.2

/-!  Frame lemmas: the track-rotation operations never touch the peer
roster or the removal timer; used for the room-removal lifecycle. -/

theorem fetchOnDeck_start_room (s : St) :
    (fetchOnDeck_start s).1.room = s.room := by
  unfold fetchOnDeck_start
  rcases h : s.room.onDeck with _ | t <;> rcases h2 : nextDj s.room with _ | d <;>
    simp [h, h2]

theorem spinDj_start_frame (s : St) :
    (spinDj_start s).1.room.peers = s.room.peers
    ∧ (spinDj_start s).1.room.removalTimer = s.room.removalTimer := by
  unfold spinDj_start
  rcases h : nextDj s.room with _ | dj
  · simp [setActiveDjOp, setOnDeckOp]
  · rcases h2 : s.room.onDeck with _ | t
    · simp [h2, setActiveDjOp]
    · simp [h2, setActiveDjOp, fetchOnDeck_start_room]

theorem endTrack_frame (s : St) :
    (endTrack s).1.1.room.peers = s.room.peers
    ∧ (endTrack s).1.1.room.removalTimer = s.room.removalTimer := by
  unfold endTrack
  rcases h : s.room.nowPlaying with _ | np
  · simp
  · simp [h, spinDj_start_frame]

theorem removeDj_frame (s : St) (p : PeerId) :
    (removeDj s p).1.1.room.peers = s.room.peers
    ∧ (removeDj s p).1.1.room.removalTimer = s.room.removalTimer := by
  unfold removeDj
  by_cases h : p ∉ s.room.djs
  · simp [h]
  · simp only [h, if_false, ite_false]
    split_ifs with h1 h2 h3 <;>
      simp [endTrack_frame, fetchOnDeck_start_room, setOnDeckOp]

/-- C9: the room-removal lifecycle: removing the last peer from the
roster arms the 45 s removal timer; any addPeer cancels the pending
timer; when the timer fires on a still-empty roster the room is removed
from the server directory, while a non-empty roster (a peer entered
before the firing) leaves the room in place; a fired timer is no longer
pending. -/
theorem room_removal_lifecycle (s : St) (p : PeerId) (w : World)
    (hmem : p ∈ s.room.peers) :
    (s.room.peers.erase p = [] → ((removePeer s p).1).room.removalTimer = some 45000)
    ∧ ((addPeer s p).1.room.removalTimer = none)
    ∧ (w.st.room.removalTimer = some 45000 → w.st.room.peers = [] →
        (removalTimerFire w).roomPresent = false)
    ∧ (w.st.room.peers ≠ [] → (removalTimerFire w).roomPresent = w.roomPresent)
    ∧ (removalTimerFire w).st.room.removalTimer = none := by
  refine ⟨?_, ?_, ?_, ?_, ?_⟩
  · intro he
    have h1 := (removeDj_frame ({ s with room := { s.room with peers := s.room.peers.erase p } }) p).1
    unfold removePeer
    simp only [not_not_intro hmem, ite_false, if_false]
    simp only [h1]
    simp [he]
    split <;> rfl
  · rfl
  · intro ht he
    unfold removalTimerFire
    simp [he]
  · intro hne
    have hp : 0 < w.st.room.peers.length := List.length_pos.mpr hne
    unfold removalTimerFire
    simp [hp]
  · by_cases hp : 0 < w.st.room.peers.length <;> simp [removalTimerFire, hp]

/-- A room whose roster holds the single peer 4. -/
def exLastPeerSt : St := ⟨⟨9, none, none, none, none, false, [4], [], none, none⟩, [], []⟩

/-- An empty room whose 45 s removal timer is pending. -/
def exArmedW : World :=
  ⟨⟨⟨9, none, none, none, none, false, [], [], none, some 45000⟩, [], []⟩, true, []⟩

/-- Witness for C9: removing the last peer arms the 45 s timer, and the
timer firing on an empty room removes it from the directory. -/
theorem room_removal_lifecycle_witness :
    4 ∈ exLastPeerSt.room.peers
    ∧ ((removePeer exLastPeerSt 4).1).room.removalTimer = some 45000
    ∧ (removalTimerFire exArmedW).roomPresent = false :=
  ⟨by decide,
   (room_removal_lifecycle exLastPeerSt 4 exArmedW (by decide)).1 (by decide),
   (room_removal_lifecycle exLastPeerSt 4 exArmedW (by decide)).2.2.1 rfl rfl⟩
/-- C1: the code does not compute downs as the count of true entries:
the reduce of room.js lines 289-295 increments ups for a truthy
(downvote) entry and downs for a false entry, so the downPerc the code
compares against 0.5 is the fraction of false entries.  At the failing
input (three peers, track 100 playing, peer 2 casts the single vote) a
downvote satisfies the claim's predicate - with the claim's downs = 1
count of true entries and ups = 0, quorum is 1/3 which is at least
3/10 and downs/(ups+downs) is 1/1 which is at least 1/2, stated below
as the rational conjunct - yet the code records the true entry in its
ups counter, evaluates shouldSkip false and leaves the warning unarmed;
conversely the single up vote (direction false) arms the warning and
the 5 s timer. -/
theorem downvote_counted_as_upvote :
    (setVote exPlayingSt 2 true).1.1.room.nowPlaying = some ⟨100, [(2, true)]⟩
    ∧ countUps [(2, true)] = 1
    ∧ countDowns [(2, true)] = 0
    ∧ ((3 : ℚ) / 10 ≤ (1 : ℚ) / 3 ∧ (1 : ℚ) / 2 ≤ (1 : ℚ) / 1)
    ∧ (setVote exPlayingSt 2 true).2 = RpcReply.ok
    ∧ (setVote exPlayingSt 2 true).1.1.room.skipWarning = false
    ∧ (setVote exPlayingSt 2 true).1.1.room.skipTimer = none
    ∧ (setVote exPlayingSt 2 false).1.1.room.skipWarning = true
    ∧ (setVote exPlayingSt 2 false).1.1.room.skipTimer = some 5000 := by
  refine ⟨rfl, rfl, rfl, by norm_num, rfl, rfl, rfl, rfl, rfl⟩

end Groovebuoy
